import Mathlib

/-!
Verification development for the FormsAI Housing Grant frontend
(dhanujdev/FormsAI).  The repository sources under scrutiny are the React
frontend of the Housing Grant Copilot: two page variants (an API-mode
variant and a legacy mock-mode variant), their shared helper module
(mockData), the API client, and the Playwright end-to-end test fixture.
Pure helpers are embedded as Lean functions; the stateful React handlers
(suggestField, suggestAll, runAudit) are embedded as explicit state-passing
step functions over a page-state record, with the network call's outcome
passed in as an `Except` value.
-/

/-- JavaScript numbers as used for confidence scores: either a rational
value or NaN.  Every numeric comparison against NaN is false in JS, which
`jsGe`/`jsGt` reproduce. -/
inductive JSNum where
  | num (q : ℚ)
  | nan
deriving DecidableEq, Repr

/-- JS `c >= b` for a possibly-NaN left operand. -/
def jsGe : JSNum → ℚ → Bool
  | .num q, b => b ≤ q
  | .nan, _ => false

/-- JS `c > b` for a possibly-NaN left operand. -/
def jsGt : JSNum → ℚ → Bool
  | .num q, b => b < q
  | .nan, _ => false

/-- Predicate matchHere pat txt: true when `pat` is an initial segment of `txt`. -/
def matchHere : List Char → List Char → Bool
  | [], _ => true
  | _ :: _, [] => false
  | a :: as, b :: bs => a == b && matchHere as bs

/-- Predicate hasSeg pat txt: true when `pat` occurs contiguously inside `txt`. -/
def hasSeg (pat : List Char) : List Char → Bool
  | [] => pat.isEmpty
  | c :: cs => matchHere pat (c :: cs) || hasSeg pat cs

/-- JS `s.includes(pat)`: substring test. -/
def jsIncludes (s pat : String) : Bool := hasSeg pat.data s.data

/-- JS `s.toLowerCase()` (ASCII case folding, applied uniformly to both
embedded copies so cross-copy comparisons are unaffected). -/
def jsToLower (s : String) : String := ⟨s.data.map Char.toLower⟩

/-- Function guessDocType from src/unnamed/part_003 (lines 396-403): keyword match
on the lowercased filename, with no landlord or ledger cases. -/
def guessDocType (name : String) : String :=
  let s := jsToLower name
  if jsIncludes s "paystub" then "paystub"
  else if jsIncludes s "lease" then "lease"
  else if jsIncludes s "utility" then "utility_bill"
  else if jsIncludes s "provider" || jsIncludes s "doctor" then "provider_letter"
  else "other"

/-- Function guessDocType from
full-stack-fastapi-template/frontend/src/components/HousingGrant/mockData.ts
(lines 21-30): same keyword chain plus landlord-letter and rent-ledger
cases. -/
def guessDocTypeMock (name : String) : String :=
  let s := jsToLower name
  if jsIncludes s "paystub" then "paystub"
  else if jsIncludes s "lease" then "lease"
  else if jsIncludes s "utility" then "utility_bill"
  else if jsIncludes s "provider" || jsIncludes s "doctor" then "provider_letter"
  else if jsIncludes s "landlord" then "landlord_letter"
  else if jsIncludes s "ledger" then "rent_ledger"
  else "other"

/-- Function labelConfidence from src/unnamed/part_003 (lines 405-410).  The final
branch returns an em dash placeholder. -/
def labelConfidence (c : JSNum) : String :=
  if jsGe c 0.8 then "High"
  else if jsGe c 0.55 then "Medium"
  else if jsGt c 0 then "Low"
  else "—"

/-- Function labelConfidence from mockData.ts (lines 32-37).  Identical thresholds,
but the placeholder string in that file is the mojibake byte sequence
U+00E2 U+20AC U+201D (a mis-decoded em dash), not U+2014. -/
def labelConfidenceMock (c : JSNum) : String :=
  if jsGe c 0.8 then "High"
  else if jsGe c 0.55 then "Medium"
  else if jsGt c 0 then "Low"
  else "â€”"

/-- JS `String(v).split(",").join("").split("$").join("")`: removes every
comma and dollar sign. -/
def stripMoney (s : String) : String :=
  ⟨s.data.filter (fun c => !(c == ',' || c == '$'))⟩

/-- JS `s.trim()`: strip whitespace from both ends. -/
def jsTrim (s : String) : String :=
  ⟨((s.data.dropWhile Char.isWhitespace).reverse.dropWhile Char.isWhitespace).reverse⟩

/-- Numeric value of a digit list, most significant first. -/
def digitsToNat (cs : List Char) : ℕ :=
  cs.foldl (fun a c => 10 * a + (c.toNat - 48)) 0

/-- Integer and fractional digit values of an unsigned decimal numeral,
with the fractional length. -/
structure UnsignedDec where
  intVal : ℕ
  fracVal : ℕ
  scale : ℕ
deriving DecidableEq, Repr

/-- Scan an unsigned decimal numeral `digits [ . digits ]` with at least
one digit (so ".5", "5." and "5.5" parse, "." and "" do not). -/
def scanUnsignedDec (cs : List Char) : Option UnsignedDec :=
  let intPart := cs.takeWhile (fun c => c != '.')
  let rest := cs.dropWhile (fun c => c != '.')
  let fracPart := rest.drop 1
  if intPart.all Char.isDigit && fracPart.all Char.isDigit &&
      (!intPart.isEmpty || !fracPart.isEmpty) then
    some { intVal := digitsToNat intPart, fracVal := digitsToNat fracPart,
           scale := fracPart.length }
  else none

/-- Rational value of a scanned unsigned decimal numeral. -/
def ratOfUnsigned (u : UnsignedDec) : ℚ :=
  (u.intVal : ℚ) + (u.fracVal : ℚ) / 10 ^ u.scale

/-- JS `Number(s)` restricted to optionally signed plain decimal numerals
(`none` plays the role of NaN).  The exotic `Number` formats (hex,
exponent, Infinity) are outside the strings the claims are about. -/
def jsNumberParse (s : String) : Option ℚ :=
  match s.data with
  | '-' :: rest => (scanUnsignedDec rest).map (fun u => -(ratOfUnsigned u))
  | '+' :: rest => (scanUnsignedDec rest).map ratOfUnsigned
  | _ => (scanUnsignedDec s.data).map ratOfUnsigned

/-- Function parseMoney from src/unnamed/part_003 (lines 412-419) and identically
from mockData.ts (lines 39-46): null in, all commas and dollar signs
removed, trimmed, null when empty or non-numeric, otherwise the parsed
number (with no sign restriction in the source). -/
def parseMoney (v : Option String) : Option ℚ :=
  match v with
  | none => none
  | some str =>
    let s := jsTrim (stripMoney str)
    if s = "" then none else jsNumberParse s

/-- Citation wire shape (src/unnamed/part_004 lines 1-8). -/
structure Citation where
  docId : String
  doc : String
  docType : String
  page : String
  chunk : String
  quote : String
deriving DecidableEq, Repr

/-- Suggestion-level flag, named Flag in src/unnamed/part_004 lines 10-14
(renamed here because Mathlib already declares a Flag); the severity
strings at this level are lowercase ("info" | "warning" | "error"). -/
structure SuggestionFlag where
  code : String
  severity : String
  message : String
deriving DecidableEq, Repr

/-- Token usage record (src/unnamed/part_004 line 25). -/
structure Usage where
  input_tokens : ℕ
  output_tokens : ℕ
deriving DecidableEq, Repr

/-- FieldSuggestion (src/unnamed/part_004 lines 16-26): the per-field
metadata the page stores after a suggestion. -/
structure FieldSuggestion where
  field_id : String
  suggested_value : String
  confidence : JSNum
  confidenceLabel : String
  rationale : String
  citations : List Citation
  flags : List SuggestionFlag
  model : String
  usage : Usage
deriving DecidableEq, Repr

/-- ApiSuggestResponse (api client, src/unnamed/part_002 lines 224-234):
the /suggest and /suggest-all element payload.  The JS falsy-default
expressions `res.confidenceLabel || ...` and `res.model || "api"` are
modelled with the empty string standing for an absent/falsy field. -/
structure ApiSuggestResponse where
  field_id : String
  suggested_value : String
  confidence : JSNum
  confidenceLabel : String
  rationale : String
  citations : List Citation
  flags : List SuggestionFlag
  model : String
  usage : Usage
deriving DecidableEq, Repr

/-- ApiSuggestAllResponse (src/unnamed/part_002 lines 236-238). -/
structure ApiSuggestAllResponse where
  suggestions : List ApiSuggestResponse
deriving DecidableEq, Repr

/-- Audit flag wire shape (src/unnamed/part_002 lines 240-246 and
part_004 lines 49-55); severity is an arbitrary string on the wire and the
frontend narrows it only with a compile-time type cast. -/
structure AuditFlag where
  severity : String
  code : String
  field_id : String
  message : String
  fix : String
deriving DecidableEq, Repr

/-- ApiAuditResponse (src/unnamed/part_002 lines 248-255). -/
structure ApiAuditResponse where
  flags : List AuditFlag
  blockers : ℤ
  warnings : ℤ
  infos : ℤ
  risk : ℤ
  coveragePct : ℤ
deriving DecidableEq, Repr

/-- AuditResult stored by the page (src/unnamed/part_004 lines 57-64). -/
structure AuditResult where
  flags : List AuditFlag
  blockers : ℤ
  warnings : ℤ
  infos : ℤ
  risk : ℤ
  coveragePct : ℤ
deriving DecidableEq, Repr

/-- HousingDocument (src/unnamed/part_004 lines 38-47). -/
structure HousingDocument where
  id : String
  filename : String
  doc_type : String
  status : String
  pages : Option ℤ
  badge : String
  created_at : String
  updated_at : String
deriving DecidableEq, Repr

/-- MockDoc of the legacy mock-mode variant
(HousingGrant/types.ts lines 38-45): no id field, capitalized status. -/
structure MockDoc where
  name : String
  docType : String
  status : String
  badge : String
  pages : ℕ
  content : Option String
deriving DecidableEq, Repr

/-- FormField (src/unnamed/part_004 lines 28-36); the optional TS fields
docTypes and verifier are modelled as a list and an Option. -/
structure FormField where
  id : String
  label : String
  type : String
  required : Bool
  evidence : Bool
  docTypes : List String
  verifier : Option String
deriving DecidableEq, Repr

/-- formSchema (src/unnamed/part_003 lines 157-173; the mockData.ts copy at
lines 3-19 is field-for-field identical). -/
def formSchema : List FormField := [
  { id := "full_name", label := "Full legal name", type := "text", required := true, evidence := false, docTypes := [], verifier := none },
  { id := "dob", label := "Date of birth", type := "date", required := true, evidence := false, docTypes := [], verifier := none },
  { id := "phone", label := "Phone number", type := "text", required := true, evidence := false, docTypes := [], verifier := none },
  { id := "email", label := "Email", type := "email", required := true, evidence := false, docTypes := [], verifier := some "domain_check" },
  { id := "address_line1", label := "Street address", type := "text", required := true, evidence := true, docTypes := ["lease", "utility_bill"], verifier := some "address_normalize" },
  { id := "city", label := "City", type := "text", required := true, evidence := true, docTypes := ["lease", "utility_bill"], verifier := some "address_normalize" },
  { id := "state", label := "State (2-letter)", type := "text", required := true, evidence := true, docTypes := ["lease", "utility_bill"], verifier := some "address_normalize" },
  { id := "zip", label := "ZIP code", type := "text", required := true, evidence := true, docTypes := ["lease", "utility_bill"], verifier := some "address_normalize" },
  { id := "household_size", label := "Household size", type := "number", required := true, evidence := false, docTypes := [], verifier := none },
  { id := "landlord_name", label := "Landlord name", type := "text", required := true, evidence := true, docTypes := ["lease", "landlord_letter"], verifier := none },
  { id := "landlord_contact", label := "Landlord contact (phone/email)", type := "text", required := true, evidence := true, docTypes := ["lease", "landlord_letter"], verifier := some "domain_check" },
  { id := "monthly_rent", label := "Monthly rent (USD)", type := "text", required := true, evidence := true, docTypes := ["lease", "rent_ledger"], verifier := none },
  { id := "employer_name", label := "Employer name (if employed)", type := "text", required := false, evidence := true, docTypes := ["paystub", "income_verification"], verifier := none },
  { id := "monthly_gross_income", label := "Monthly gross income (USD)", type := "text", required := true, evidence := true, docTypes := ["paystub", "income_verification"], verifier := none },
  { id := "requested_accommodation", label := "Requested accommodation (describe)", type := "textarea", required := true, evidence := true, docTypes := ["provider_letter"], verifier := none }
]

/-- readyDocs (src/unnamed/part_000 line 40): documents whose status is
exactly "ready". -/
def readyDocs (docs : List HousingDocument) : List HousingDocument :=
  docs.filter (fun d => d.status == "ready")

/-- Document ids sent by the API-mode suggest and suggest-all handlers
(src/unnamed/part_000 lines 65 and 104): ids of the ready documents. -/
def suggestDocIds (docs : List HousingDocument) : List String :=
  (readyDocs docs).map (fun d => d.id)

/-- Document ids sent by the API-mode preview-audit handler
(src/unnamed/part_001 line 426). -/
def auditDocIds (docs : List HousingDocument) : List String :=
  (docs.filter (fun d => d.status == "ready")).map (fun d => d.id)

/-- JS `String(i).padStart(3, "0")`. -/
def padStart3 (s : String) : String :=
  if s.length ≥ 3 then s else String.mk (List.replicate (3 - s.length) '0') ++ s

/-- Document ids sent by the legacy mock-mode handlers
(src/unnamed/part_001 lines 60 and 100, src/unnamed/part_002 line 71):
one synthetic positional id per document, with no status filter. -/
def mockDocIds (docs : List MockDoc) : List String :=
  (List.range docs.length).map (fun i => "doc_" ++ padStart3 (toString i))

/-- Page state of the API-mode HousingGrantPage
(src/unnamed/part_001 lines 366-370); the Record maps are total functions
into Option, mirroring JS index-miss returning undefined. -/
structure PageState where
  docs : List HousingDocument
  formValues : String → Option String
  fieldMeta : String → Option FieldSuggestion
  audit : Option AuditResult
  auditLoading : Bool

/-- JS spread-update `{ ...prev, [k]: v }` on a string-keyed record. -/
def updateMap {α : Type} (m : String → Option α) (k : String) (v : α) :
    String → Option α :=
  fun x => if x = k then some v else m x

/-- The FieldSuggestion built from a suggest response
(src/unnamed/part_000 lines 69-82): each field is taken from the response,
with `||` fallbacks for confidenceLabel, citations, flags, model, usage;
the severity spread-and-cast on flags is the identity at runtime. -/
def metaOfSuggestion (res : ApiSuggestResponse) : FieldSuggestion :=
  { field_id := res.field_id
    suggested_value := res.suggested_value
    confidence := res.confidence
    confidenceLabel :=
      if res.confidenceLabel = "" then labelConfidence res.confidence
      else res.confidenceLabel
    rationale := res.rationale
    citations := res.citations
    flags := res.flags.map (fun f => { f with severity := f.severity })
    model := if res.model = "" then "api" else res.model
    usage := res.usage }

/-- Toast outcome reported to the user by the suggestion handlers. -/
inductive SuggestOutcome where
  | noField
  | noReadyDocs
  | errorToast (msg : String)
  | successToast
deriving DecidableEq, Repr

/-- suggestField of the API-mode FormPanel (src/unnamed/part_000 lines
55-94) as a state transition.  The network call's outcome is the `resp`
argument; the early returns (unknown field id, no ready documents) leave
the state untouched; the catch branch only raises an error toast; the
success branch writes the suggested value and the response metadata. -/
def suggestFieldStep (st : PageState) (fieldId : String)
    (resp : Except String ApiSuggestResponse) : PageState × SuggestOutcome :=
  match formSchema.find? (fun f => f.id == fieldId) with
  | none => (st, .noField)
  | some _ =>
    match readyDocs st.docs with
    | [] => (st, .noReadyDocs)
    | _ :: _ =>
      match resp with
      | .error e => (st, .errorToast e)
      | .ok res =>
        ({ st with
            formValues := updateMap st.formValues fieldId res.suggested_value
            fieldMeta := updateMap st.fieldMeta fieldId (metaOfSuggestion res) },
          .successToast)

/-- The for-loop of suggestAll (src/unnamed/part_000 lines 110-123):
fold the returned suggestions into copies of both records, keying each
write by the suggestion's own field_id. -/
def applySuggestions (vals : String → Option String)
    (meta : String → Option FieldSuggestion) :
    List ApiSuggestResponse → (String → Option String) × (String → Option FieldSuggestion)
  | [] => (vals, meta)
  | s :: rest =>
    applySuggestions (updateMap vals s.field_id s.suggested_value)
      (updateMap meta s.field_id (metaOfSuggestion s)) rest

/-- suggestAll of the API-mode FormPanel (src/unnamed/part_000 lines
96-137) as a state transition. -/
def suggestAllStep (st : PageState) (resp : Except String ApiSuggestAllResponse) :
    PageState × SuggestOutcome :=
  match readyDocs st.docs with
  | [] => (st, .noReadyDocs)
  | _ :: _ =>
    match resp with
    | .error e => (st, .errorToast e)
    | .ok r =>
      let p := applySuggestions st.formValues st.fieldMeta r.suggestions
      ({ st with formValues := p.1, fieldMeta := p.2 }, .successToast)

/-- The AuditResult the page stores from a successful preview-audit
response (src/unnamed/part_001 lines 437-444): every component is taken
from the one response; the per-flag spread-and-cast is the identity. -/
def auditResultOfResponse (r : ApiAuditResponse) : AuditResult :=
  { flags := r.flags.map (fun f => { f with severity := f.severity })
    blockers := r.blockers
    warnings := r.warnings
    infos := r.infos
    risk := r.risk
    coveragePct := r.coveragePct }

/-- runAudit of the API-mode page (src/unnamed/part_001 lines 423-454) as
a state transition; the mock-mode copy (src/unnamed/part_002 lines 68-103)
stores the result identically and differs only in the doc ids it sends.
On error the catch branch only raises a toast, and the finally branch
clears the loading overlay either way. -/
def runAuditStep (st : PageState) (resp : Except String ApiAuditResponse) : PageState :=
  match resp with
  | .error _ => { st with auditLoading := false }
  | .ok r => { st with audit := some (auditResultOfResponse r), auditLoading := false }

/-- The preview-audit response served by the repository's Playwright
fixture (src/unnamed/part_005 lines 118-139). -/
def part005AuditFixture : ApiAuditResponse :=
  { flags := [
      { severity := "WARNING"
        code := "MISSING_EVIDENCE_REQUIRED"
        field_id := "monthly_rent"
        message := "Monthly rent has no linked evidence citation."
        fix := "Run Suggest again." }]
    blockers := 0
    warnings := 1
    infos := 0
    risk := 10
    coveragePct := 20 }

/-- The ready lease document of the Playwright fixture
(src/unnamed/part_005 lines 66-77). -/
def readyLease : HousingDocument :=
  { id := "11111111-1111-1111-1111-111111111111"
    filename := "lease.txt"
    doc_type := "lease"
    status := "ready"
    pages := some 1
    badge := "good"
    created_at := "2030-01-01T00:00:00Z"
    updated_at := "2030-01-01T00:00:00Z" }

/-- A concrete page state holding one ready document and empty maps, as
after the fixture's second listDocuments call. -/
def st0 : PageState :=
  { docs := [readyLease]
    formValues := fun _ => none
    fieldMeta := fun _ => none
    audit := none
    auditLoading := false }

/-- Grounding verdict of the spec's Grounding Judge (spec section 4.4). -/
inductive Verdict where
  | supported
  | unsupported
  | contradicted
deriving DecidableEq, Repr

/-- Modelled from the spec: one audited form field as the Audit Aggregator
sees it — whether the field is evidence-required and the Grounding Judge's
verdict for it.  The backend aggregator that computes coveragePct is not
among the repository sources (only its frontend callers are), so its input
is modelled from spec sections 4.4 and 4.6. -/
structure GroundedField where
  evidenceRequired : Bool
  verdict : Verdict
deriving DecidableEq, Repr

/-- Number of evidence-required fields. -/
def evidenceRequiredCount (l : List GroundedField) : ℕ :=
  (l.filter (fun f => f.evidenceRequired)).length

/-- Number of evidence-required fields with a supported verdict. -/
def supportedCount (l : List GroundedField) : ℕ :=
  (l.filter (fun f => f.evidenceRequired && f.verdict == Verdict.supported)).length

/-- Modelled from the spec: the Audit Aggregator's coveragePct (spec
section 4.6) — 100 when there are no evidence-required fields, otherwise
supported/total scaled to 100 and rounded to the nearest integer, computed
here in exact integer arithmetic as (200s + t) / 2t. -/
def coveragePct (l : List GroundedField) : ℕ :=
  let t := evidenceRequiredCount l
  if t = 0 then 100 else (200 * supportedCount l + t) / (2 * t)

/-- A mock-mode document whose ingestion has not finished. -/
def processingMockDoc : MockDoc :=
  { name := "lease.pdf", docType := "lease", status := "Processing",
    badge := "info", pages := 1, content := none }

/-- A suggest response whose field_id does not echo the requested field. -/
def mismatchedSuggestResponse : ApiSuggestResponse :=
  { field_id := "email", suggested_value := "jane@example.com",
    confidence := JSNum.num 0.9, confidenceLabel := "High", rationale := "r",
    citations := [], flags := [], model := "m", usage := { input_tokens := 1, output_tokens := 1 } }

/-- The suggest-all element served by the Playwright fixture
(src/unnamed/part_005 lines 92-113). -/
def fixtureSuggestion : ApiSuggestResponse :=
  { field_id := "full_name"
    suggested_value := "Jane Applicant"
    confidence := JSNum.num 0.92
    confidenceLabel := "High"
    rationale := "Name is present in uploaded lease."
    citations := [{ docId := "11111111-1111-1111-1111-111111111111", doc := "lease.txt",
                    docType := "lease", page := "1", chunk := "chk_00001",
                    quote := "Tenant: Jane Applicant" }]
    flags := []
    model := "mock-model"
    usage := { input_tokens := 10, output_tokens := 5 } }

/-- A sample aggregator input: three evidence-required fields, two of them
supported. -/
def sampleFields : List GroundedField :=
  [{ evidenceRequired := true, verdict := Verdict.supported },
   { evidenceRequired := true, verdict := Verdict.unsupported },
   { evidenceRequired := true, verdict := Verdict.supported }]

/-- Scanned unsigned decimals are nonnegative rationals. -/
lemma ratOfUnsigned_nonneg (u : UnsignedDec) : 0 ≤ ratOfUnsigned u := by
  unfold ratOfUnsigned
  positivity

/-- Characters of the trimmed string come from the original string. -/
lemma mem_of_mem_jsTrim {c : Char} {s : String} (h : c ∈ (jsTrim s).data) :
    c ∈ s.data := by
  unfold jsTrim at h
  simp only [List.mem_reverse] at h
  have h1 := (List.dropWhile_sublist (l := (s.data.dropWhile Char.isWhitespace).reverse)
    (p := Char.isWhitespace)).mem h
  simp only [List.mem_reverse] at h1
  exact (List.dropWhile_sublist (l := s.data) (p := Char.isWhitespace)).mem h1

/-- Characters of the stripped string come from the original string. -/
lemma mem_of_mem_stripMoney {c : Char} {s : String} (h : c ∈ (stripMoney s).data) :
    c ∈ s.data := by
  unfold stripMoney at h
  exact List.mem_of_mem_filter h

/-- A numeral with no minus sign parses to a nonnegative rational. -/
lemma jsNumberParse_nonneg {s : String} {q : ℚ} (hm : '-' ∉ s.data)
    (h : jsNumberParse s = some q) : 0 ≤ q := by
  unfold jsNumberParse at h
  split at h
  · rename_i heq
    exact absurd (heq ▸ List.mem_cons_self '-' _) hm
  · rename_i heq
    obtain ⟨u, _, rfl⟩ := Option.map_eq_some'.mp h
    exact ratOfUnsigned_nonneg u
  · obtain ⟨u, _, rfl⟩ := Option.map_eq_some'.mp h
    exact ratOfUnsigned_nonneg u

/-- C4 (amended): parseMoney returns null for the null input, for inputs
that are empty or whitespace after stripping dollar signs and commas, and
for non-numeric remainders; a returned number equals the parsed decimal
and is nonnegative whenever the input contains no minus sign — but the
source imposes no sign restriction, so inputs with a minus sign can return
negative numbers. -/
theorem parseMoney_spec :
    parseMoney none = none
    ∧ (∀ s : String, jsTrim (stripMoney s) = "" → parseMoney (some s) = none)
    ∧ (∀ (s : String) (q : ℚ), '-' ∉ s.data → parseMoney (some s) = some q → 0 ≤ q) := by
  refine ⟨rfl, ?_, ?_⟩
  · intro s h
    simp [parseMoney, h]
  · intro s q hm h
    simp only [parseMoney] at h
    split at h
    · exact absurd h (by simp)
    · rename_i hne
      refine jsNumberParse_nonneg ?_ h
      intro hc
      exact hm (mem_of_mem_stripMoney (mem_of_mem_jsTrim hc))

/-- C4 witness: the null-after-stripping case at a concrete string of
dollar signs, commas and spaces, and the nonnegative case at "$1,650". -/
theorem parseMoney_spec_witness :
    parseMoney (some " $ , ") = none ∧ (0 : ℚ) ≤ 1650 := by
  refine ⟨parseMoney_spec.2.1 " $ , " (by decide), ?_⟩
  refine parseMoney_spec.2.2 "$1,650" 1650 (by decide) ?_
  have h2 : jsTrim (stripMoney "$1,650") = "1650" := by decide
  have h3 : scanUnsignedDec ['1', '6', '5', '0'] = some ⟨1650, 0, 0⟩ := by decide
  simp [parseMoney, h2, jsNumberParse, h3, ratOfUnsigned]

/-- C4 counterexample: parseMoney accepts "-5" and returns a negative
number, so the claimed nonnegativity of every returned number is false on
the code. -/
theorem parseMoney_negative_counterexample :
    parseMoney (some "-5") = some (-5) ∧ ¬(0 : ℚ) ≤ -5 := by
  constructor
  · have h2 : jsTrim (stripMoney "-5") = "-5" := by decide
    have h3 : scanUnsignedDec ['5'] = some ⟨5, 0, 0⟩ := by decide
    simp [parseMoney, h2, jsNumberParse, h3, ratOfUnsigned]
  · norm_num

/-- C8 (amended): the two helper copies agree wherever the part_003 copy
recognises a document type, and agree on confidence labels for positive
confidence; they diverge exactly where mockData.ts adds the
landlord-letter and rent-ledger cases (and on the byte-level placeholder
string at nonpositive confidence). -/
theorem helper_copies_agree :
    (∀ name : String, guessDocType name ≠ "other" → guessDocTypeMock name = guessDocType name)
    ∧ (∀ name : String,
        guessDocTypeMock name = guessDocType name
        ∨ (guessDocType name = "other"
          ∧ (jsIncludes (jsToLower name) "landlord" = true
             ∨ jsIncludes (jsToLower name) "ledger" = true)))
    ∧ (∀ c : JSNum, jsGt c 0 = true → labelConfidenceMock c = labelConfidence c) := by
  refine ⟨?_, ?_, ?_⟩
  · intro name h
    simp only [guessDocType, guessDocTypeMock] at h ⊢
    split_ifs at h ⊢ <;> simp_all
  · intro name
    simp only [guessDocType, guessDocTypeMock]
    split_ifs <;> simp_all
  · intro c h
    unfold labelConfidence labelConfidenceMock
    split_ifs with h1 h2 <;> simp_all

/-- C8 witness: both copies agree at a filename they both classify as a
lease, and at a positive confidence value. -/
theorem helper_copies_agree_witness :
    guessDocTypeMock "Lease_Apt12.pdf" = guessDocType "Lease_Apt12.pdf"
    ∧ labelConfidenceMock (JSNum.num 1) = labelConfidence (JSNum.num 1) :=
  ⟨helper_copies_agree.1 "Lease_Apt12.pdf" (by decide),
   helper_copies_agree.2.2 (JSNum.num 1) (by norm_num [jsGt])⟩

/-- C8 counterexample: the copies are not extensionally equal — a
rent-ledger filename is classified "other" by the part_003 copy but
"rent_ledger" by the mockData.ts copy. -/
theorem guessDocType_copies_counterexample :
    guessDocType "Rent_Ledger.pdf" = "other"
    ∧ guessDocTypeMock "Rent_Ledger.pdf" = "rent_ledger"
    ∧ ("other" : String) ≠ "rent_ledger" := by decide

/-- C10: labelConfidence partitions its input — "High" exactly on
confidence at least 0.8, "Medium" exactly on [0.55, 0.8), "Low" exactly
on (0, 0.55), and the dash placeholder exactly on the rest (nonpositive
values, and NaN, for which every comparison is false); one of the four
outcomes always occurs. -/
theorem labelConfidence_partition :
    (∀ q : ℚ,
      (labelConfidence (JSNum.num q) = "High" ↔ 0.8 ≤ q)
      ∧ (labelConfidence (JSNum.num q) = "Medium" ↔ 0.55 ≤ q ∧ q < 0.8)
      ∧ (labelConfidence (JSNum.num q) = "Low" ↔ 0 < q ∧ q < 0.55)
      ∧ (labelConfidence (JSNum.num q) = "—" ↔ q ≤ 0))
    ∧ labelConfidence JSNum.nan = "—"
    ∧ (∀ c : JSNum, labelConfidence c = "High" ∨ labelConfidence c = "Medium"
        ∨ labelConfidence c = "Low" ∨ labelConfidence c = "—") := by
  refine ⟨?_, rfl, ?_⟩
  · intro q
    unfold labelConfidence jsGe jsGt
    split_ifs with h1 h2 h3 <;> simp_all <;>
      first
        | linarith
        | (constructor <;> first | linarith | (intro hx; linarith))
  · intro c
    unfold labelConfidence
    split_ifs <;> simp

/-- C1 (amended): the frontend applies no severity policy when accepting an
audit report — every flag of the response is stored verbatim, severity and
code included — and the repository's own preview-audit fixture (matching
the README's "warning-level missing-evidence policy") carries a
MISSING_EVIDENCE_REQUIRED flag with severity WARNING. -/
theorem audit_flags_stored_verbatim :
    (∀ (st : PageState) (r : ApiAuditResponse),
      ∃ a : AuditResult, (runAuditStep st (Except.ok r)).audit = some a ∧ a.flags = r.flags)
    ∧ (auditResultOfResponse part005AuditFixture).flags =
        [{ severity := "WARNING", code := "MISSING_EVIDENCE_REQUIRED",
           field_id := "monthly_rent",
           message := "Monthly rent has no linked evidence citation.",
           fix := "Run Suggest again." }] := by
  constructor
  · intro st r
    refine ⟨auditResultOfResponse r, rfl, ?_⟩
    simp [auditResultOfResponse]
  · rfl

/-- C1 counterexample: the page accepts and stores the fixture report,
which contains a MISSING_EVIDENCE_REQUIRED flag whose severity is WARNING,
not BLOCKER — so the claimed BLOCKER invariant fails on a report the
system accepts. -/
theorem missing_evidence_warning_counterexample :
    (runAuditStep st0 (Except.ok part005AuditFixture)).audit
      = some (auditResultOfResponse part005AuditFixture)
    ∧ (auditResultOfResponse part005AuditFixture).flags.any
        (fun f => f.code == "MISSING_EVIDENCE_REQUIRED" && f.severity == "WARNING") = true
    ∧ (auditResultOfResponse part005AuditFixture).flags.all
        (fun f => !(f.code == "MISSING_EVIDENCE_REQUIRED") || f.severity == "BLOCKER") = false :=
  ⟨rfl, by decide, by decide⟩

/-- C2 (amended): in the API-mode components the document ids sent to
suggest, suggest-all and preview-audit are exactly the ids of documents
whose status is "ready"; the legacy mock-mode components instead send one
synthetic positional id per held document, with no status filter. -/
theorem docIds_ready_policy :
    (∀ (docs : List HousingDocument) (i : String),
      (i ∈ suggestDocIds docs ↔ ∃ d, d ∈ docs ∧ d.status = "ready" ∧ d.id = i)
      ∧ (i ∈ auditDocIds docs ↔ ∃ d, d ∈ docs ∧ d.status = "ready" ∧ d.id = i))
    ∧ (∀ docs : List MockDoc, (mockDocIds docs).length = docs.length) := by
  constructor
  · intro docs i
    constructor <;>
      · simp only [suggestDocIds, auditDocIds, readyDocs, List.mem_map, List.mem_filter,
          beq_iff_eq]
        constructor
        · rintro ⟨d, ⟨hd, hs⟩, hi⟩
          exact ⟨d, hd, hs, hi⟩
        · rintro ⟨d, hd, hs, hi⟩
          exact ⟨d, ⟨hd, hs⟩, hi⟩
  · intro docs
    simp [mockDocIds]

/-- C2 counterexample: a mock-mode document list holding one document that
is still processing — no document has status "ready", yet the mock-mode
handlers send one positional id for it. -/
theorem mock_docIds_counterexample :
    mockDocIds [processingMockDoc] = ["doc_000"]
    ∧ processingMockDoc.status ≠ "ready"
    ∧ processingMockDoc.status ≠ "Ready" := by decide

/-- C5: the audit state is replaced atomically — after a failed
preview-audit call the stored audit is exactly what it was before, and
after a successful call it is the complete report whose every component
(flags, blockers, warnings, infos, risk, coveragePct) comes from that one
response. -/
theorem runAudit_atomic :
    (∀ (st : PageState) (e : String), (runAuditStep st (Except.error e)).audit = st.audit)
    ∧ (∀ (st : PageState) (r : ApiAuditResponse),
        (runAuditStep st (Except.ok r)).audit =
          some { flags := r.flags, blockers := r.blockers, warnings := r.warnings,
                 infos := r.infos, risk := r.risk, coveragePct := r.coveragePct }) := by
  constructor
  · intro st e
    rfl
  · intro st r
    simp [runAuditStep, auditResultOfResponse]

/-- C7: running the preview audit never alters the applicant's form state —
formValues, fieldMeta and the document list are identical before and after
runAudit, whether the call succeeds or fails. -/
theorem runAudit_form_frame (st : PageState) (resp : Except String ApiAuditResponse) :
    (runAuditStep st resp).formValues = st.formValues
    ∧ (runAuditStep st resp).fieldMeta = st.fieldMeta
    ∧ (runAuditStep st resp).docs = st.docs := by
  cases resp <;> exact ⟨rfl, rfl, rfl⟩

/-- Integer-arithmetic form of round-to-nearest: for positive t,
round(100 s / t) is (200 s + t) / (2 t) in natural division. -/
lemma round_ratio_eq_natDiv (s t : ℕ) (ht : 0 < t) :
    round ((100 * (s : ℚ)) / (t : ℚ)) = (((200 * s + t) / (2 * t) : ℕ) : ℤ) := by
  have htq : (t : ℚ) ≠ 0 := Nat.cast_ne_zero.mpr ht.ne'
  rw [round_eq]
  have hrw : (100 * (s : ℚ)) / (t : ℚ) + 1 / 2
      = (((200 * s + t : ℕ) : ℤ) : ℚ) / ((2 * t : ℕ) : ℚ) := by
    push_cast
    field_simp
    ring
  rw [hrw, Rat.floor_intCast_div_natCast]
  rw [← Int.natCast_div]

/-- C3: coveragePct equals 100 when there are no evidence-required fields,
and otherwise equals 100 times the supported fraction of evidence-required
fields, rounded to the nearest integer. -/
theorem coveragePct_law :
    (∀ l : List GroundedField, evidenceRequiredCount l = 0 → coveragePct l = 100)
    ∧ (∀ l : List GroundedField, 0 < evidenceRequiredCount l →
        (coveragePct l : ℤ)
          = round ((100 * (supportedCount l : ℚ)) / (evidenceRequiredCount l : ℚ))) := by
  constructor
  · intro l h
    simp [coveragePct, h]
  · intro l ht
    rw [round_ratio_eq_natDiv _ _ ht]
    simp [coveragePct, ht.ne']

/-- C3 witness: a schema with no evidence-required field has coverage 100,
and three evidence-required fields with two supported round to 67. -/
theorem coveragePct_law_witness :
    coveragePct [{ evidenceRequired := false, verdict := Verdict.supported }] = 100
    ∧ (coveragePct sampleFields : ℤ)
        = round ((100 * (supportedCount sampleFields : ℚ))
            / (evidenceRequiredCount sampleFields : ℚ)) :=
  ⟨coveragePct_law.1 _ (by decide), coveragePct_law.2 sampleFields (by decide)⟩

/-- C6: a failed suggest call leaves the page state — formValues and
fieldMeta included — exactly unchanged and reports an error toast, and a
suggested value reaches the form only as the literal suggested_value of a
successful response, never a locally fabricated one. -/
theorem suggestField_error_contract :
    (∀ (st : PageState) (fid e : String), (suggestFieldStep st fid (Except.error e)).1 = st)
    ∧ (∀ (st : PageState) (fid e : String),
        (formSchema.find? (fun f => f.id == fid)).isSome = true →
        readyDocs st.docs ≠ [] →
        (suggestFieldStep st fid (Except.error e)).2 = SuggestOutcome.errorToast e)
    ∧ (∀ (st : PageState) (fid : String) (res : ApiSuggestResponse),
        (suggestFieldStep st fid (Except.ok res)).1.formValues fid = st.formValues fid
        ∨ (suggestFieldStep st fid (Except.ok res)).1.formValues fid
            = some res.suggested_value) := by
  refine ⟨?_, ?_, ?_⟩
  · intro st fid e
    unfold suggestFieldStep
    cases h : formSchema.find? (fun f => f.id == fid) <;> simp
    cases h2 : readyDocs st.docs <;> simp
  · intro st fid e hf hr
    unfold suggestFieldStep
    obtain ⟨f, hf⟩ := Option.isSome_iff_exists.mp hf
    rw [hf]
    cases h2 : readyDocs st.docs with
    | nil => exact absurd h2 hr
    | cons a l => simp
  · intro st fid res
    unfold suggestFieldStep
    cases h : formSchema.find? (fun f => f.id == fid) <;> simp
    cases h2 : readyDocs st.docs <;> simp [updateMap]

/-- C6 witness: with the fixture's ready document and a known field, a
failed call reports the error toast. -/
theorem suggestField_error_contract_witness :
    (suggestFieldStep st0 "full_name" (Except.error "API 500: boom")).2
      = SuggestOutcome.errorToast "API 500: boom" :=
  suggestField_error_contract.2.1 st0 "full_name" "API 500: boom" (by decide) (by decide)

/-- The suggest-all fold: keys outside the returned suggestions keep their
old entries, and every key among the returned suggestions ends holding a
metadata record whose field_id is that key and whose suggested_value is
the stored form value. -/
lemma applySuggestions_apply (ss : List ApiSuggestResponse)
    (vals : String → Option String) (meta : String → Option FieldSuggestion)
    (fid : String) :
    (fid ∉ ss.map (fun s => s.field_id) →
      (applySuggestions vals meta ss).1 fid = vals fid
      ∧ (applySuggestions vals meta ss).2 fid = meta fid)
    ∧ (fid ∈ ss.map (fun s => s.field_id) →
      ∃ m : FieldSuggestion,
        (applySuggestions vals meta ss).2 fid = some m
        ∧ m.field_id = fid
        ∧ (applySuggestions vals meta ss).1 fid = some m.suggested_value) := by
  induction ss generalizing vals meta with
  | nil => simp [applySuggestions]
  | cons s rest ih =>
    constructor
    · intro hnot
      simp only [List.map_cons, List.mem_cons, not_or] at hnot
      obtain ⟨hne, hrest⟩ := hnot
      have h := (ih (updateMap vals s.field_id s.suggested_value)
        (updateMap meta s.field_id (metaOfSuggestion s)) ).1 hrest
      simp only [applySuggestions]
      refine ⟨h.1.trans ?_, h.2.trans ?_⟩ <;> simp [updateMap, hne]
    · intro hmem
      by_cases hrest : fid ∈ rest.map (fun s => s.field_id)
      · exact ((ih (updateMap vals s.field_id s.suggested_value)
          (updateMap meta s.field_id (metaOfSuggestion s))).2 hrest)
      · have hfid : fid = s.field_id := by
          simp only [List.map_cons, List.mem_cons] at hmem
          tauto
        have h := (ih (updateMap vals s.field_id s.suggested_value)
          (updateMap meta s.field_id (metaOfSuggestion s))).1 hrest
        refine ⟨metaOfSuggestion s, ?_, ?_, ?_⟩
        · rw [show applySuggestions vals meta (s :: rest)
            = applySuggestions (updateMap vals s.field_id s.suggested_value)
                (updateMap meta s.field_id (metaOfSuggestion s)) rest from rfl]
          rw [h.2]
          simp [updateMap, hfid]
        · simp [metaOfSuggestion, hfid]
        · rw [show applySuggestions vals meta (s :: rest)
            = applySuggestions (updateMap vals s.field_id s.suggested_value)
                (updateMap meta s.field_id (metaOfSuggestion s)) rest from rfl]
          rw [h.1]
          simp [updateMap, hfid, metaOfSuggestion]

/-- C9 (amended): after a successful suggestField(fid), the form value at
fid is the response's suggested_value and the stored metadata at fid
carries that same suggested_value — but its field_id is the response's
field_id, which equals fid only when the server echoes the requested
field; after a successful suggestAll, every field id among the returned
suggestions holds metadata whose field_id is that id and whose
suggested_value equals the stored form value. -/
theorem suggestion_sync :
    (∀ (st : PageState) (fid : String) (res : ApiSuggestResponse),
      (formSchema.find? (fun f => f.id == fid)).isSome = true →
      readyDocs st.docs ≠ [] →
      (suggestFieldStep st fid (Except.ok res)).1.formValues fid = some res.suggested_value
      ∧ (suggestFieldStep st fid (Except.ok res)).1.fieldMeta fid
          = some (metaOfSuggestion res)
      ∧ (metaOfSuggestion res).suggested_value = res.suggested_value
      ∧ (metaOfSuggestion res).field_id = res.field_id)
    ∧ (∀ (st : PageState) (r : ApiSuggestAllResponse) (fid : String),
      readyDocs st.docs ≠ [] →
      fid ∈ r.suggestions.map (fun s => s.field_id) →
      ∃ m : FieldSuggestion,
        (suggestAllStep st (Except.ok r)).1.fieldMeta fid = some m
        ∧ m.field_id = fid
        ∧ (suggestAllStep st (Except.ok r)).1.formValues fid = some m.suggested_value) := by
  constructor
  · intro st fid res hf hr
    unfold suggestFieldStep
    obtain ⟨f, hf⟩ := Option.isSome_iff_exists.mp hf
    rw [hf]
    cases h2 : readyDocs st.docs with
    | nil => exact absurd h2 hr
    | cons a l =>
      refine ⟨?_, ?_, rfl, rfl⟩ <;> simp [updateMap]
  · intro st r fid hr hmem
    unfold suggestAllStep
    cases h2 : readyDocs st.docs with
    | nil => exact absurd h2 hr
    | cons a l =>
      exact (applySuggestions_apply r.suggestions st.formValues st.fieldMeta fid).2 hmem

/-- C9 witness: the fixture suggestion (field_id full_name) through
suggestField, and the fixture suggest-all response. -/
theorem suggestion_sync_witness :
    ((suggestFieldStep st0 "full_name" (Except.ok fixtureSuggestion)).1.formValues "full_name"
        = some "Jane Applicant"
      ∧ (suggestFieldStep st0 "full_name" (Except.ok fixtureSuggestion)).1.fieldMeta "full_name"
          = some (metaOfSuggestion fixtureSuggestion))
    ∧ ∃ m : FieldSuggestion,
        (suggestAllStep st0 (Except.ok { suggestions := [fixtureSuggestion] })).1.fieldMeta
            "full_name" = some m
        ∧ m.field_id = "full_name"
        ∧ (suggestAllStep st0 (Except.ok { suggestions := [fixtureSuggestion] })).1.formValues
            "full_name" = some m.suggested_value := by
  constructor
  · have h := suggestion_sync.1 st0 "full_name" fixtureSuggestion (by decide) (by decide)
    exact ⟨h.1, h.2.1⟩
  · exact suggestion_sync.2 st0 { suggestions := [fixtureSuggestion] } "full_name"
      (by decide) (by decide)

/-- C9 counterexample: a successful suggestField("full_name") whose
response carries field_id "email" stores metadata at key "full_name" whose
field_id is "email" — the claimed fieldMeta-key/field_id agreement fails. -/
theorem suggestField_meta_mismatch_counterexample :
    ((suggestFieldStep st0 "full_name"
        (Except.ok mismatchedSuggestResponse)).1.fieldMeta "full_name").map
      (fun m => m.field_id) = some "email"
    ∧ ("email" : String) ≠ "full_name" := by
  constructor
  · rfl
  · decide
